import Mathlib

set_option maxRecDepth 100000

/-!
Shallow embedding of the RAG desktop app in `02-open-source/kivy-app.py`.

Strings are modelled as lists of characters (`Str`), so that the Python
string operations used by the program (`str.strip`, concatenation,
`str.format` on the fixed template) are ordinary list functions.  The two
external services (the Elasticsearch client and the OpenAI-compatible
completion client) are modelled as function parameters returning `Except`
values, so that transport failures and the shape of the requests the code
sends can both be expressed.  Python exceptions are modelled by the
`Except PyErr` monad: a raised exception is `Except.error`, and the
`do`-notation reproduces the propagation of the first exception.
-/

/-- Python strings, modelled as lists of characters. -/
abbrev Str := List Char

/-- Coerce a Lean string literal to the character-list model. -/
def str (x : String) : Str := x.data

/-- The characters removed by the Python method `str.strip`. -/
def isPyWs (c : Char) : Bool :=
  c = ' ' || c = '\t' || c = '\n' || c = '\r' || c = '\x0b' || c = '\x0c'

/-- Removal of leading Python whitespace (left half of `str.strip`). -/
def pyStripLeft (l : Str) : Str := l.dropWhile isPyWs

/-- Removal of trailing Python whitespace (right half of `str.strip`). -/
def pyStripRight (l : Str) : Str := (l.reverse.dropWhile isPyWs).reverse

/-- The Python method `str.strip`: remove whitespace at both ends. -/
def pyStrip (l : Str) : Str := pyStripLeft (pyStripRight l)

/-- A Python dict with string keys and string values, as delivered by the
search index (the `_source` of a hit). -/
abbrev Doc := List (Str × Str)

/-- The Python exceptions the embedded code can raise or propagate. -/
inductive PyErr where
  | keyError (key : Str)
  | indexError
  | valueError (msg : Str)
  | connError (msg : Str)
  | attributeError (name : Str)
deriving DecidableEq

/-- Python dict subscription `d[k]`: the value, or a `KeyError`. -/
def getItem (d : Doc) (k : Str) : Except PyErr Str :=
  match List.lookup k d with
  | some v => Except.ok v
  | none => Except.error (PyErr.keyError k)

/-- Python list subscription `l[0]`: the first element, or an `IndexError`. -/
def pyGet0 {α : Type} : List α → Except PyErr α
  | [] => Except.error PyErr.indexError
  | x :: _ => Except.ok x

/-- The `multi_match` clause of the search body. -/
structure MultiMatchClause where
  query : Str
  fields : List Str
  type : Str
deriving DecidableEq

/-- The `term` filter clause of the search body. -/
structure TermClause where
  course : Str
deriving DecidableEq

/-- The `bool` clause of the search body. -/
structure BoolClause where
  must : MultiMatchClause
  filter : TermClause
deriving DecidableEq

/-- The `query` clause of the search body. -/
structure QueryClause where
  bool : BoolClause
deriving DecidableEq

/-- The Elasticsearch request body assembled by `elastic_search`. -/
structure SearchBody where
  size : Nat
  query : QueryClause
deriving DecidableEq

/-- The body of the search request, exactly as assembled in
`elastic_search` (the local variable `search_query` of the source). -/
def search_query (query : Str) : SearchBody :=
  { size := 5
    query :=
      { bool :=
          { must :=
              { query := query
                fields := [str "question^3", str "text", str "section"]
                type := str "best_fields" }
            filter := { course := str "data-engineering-zoomcamp" } } } }

/-- One hit of an Elasticsearch response; `_source` is the stored document. -/
structure EsHit where
  _source : Doc

/-- The inner `hits` object of an Elasticsearch response. -/
structure EsHits where
  hits : List EsHit

/-- An Elasticsearch response, as consumed by `elastic_search`. -/
structure EsResponse where
  hits : EsHits

/-- The external search client, `es_client.search`, taking the index name
and the request body. A transport or index error is an `Except.error`. -/
abbrev EsClient := Str → SearchBody → Except PyErr EsResponse

/-- The default of the `index_name` parameter of `elastic_search`. -/
def default_index : Str := str "course-questions-docker"

/-- `elastic_search`: send the fixed-shape body to the index, then collect
the `_source` of every hit, in response order. -/
def elastic_search (es_client : EsClient) (query : Str) (index_name : Str) :
    Except PyErr (List Doc) := do
  let response_es ← es_client index_name (search_query query)
  Except.ok (response_es.hits.hits.map (fun h => h._source))

/-- The template literal of `build_prompt`, before the `.strip()` applied
at its definition (the braces of the two placeholders are escaped). -/
def prompt_template_raw : Str :=
  str "\n    You\x27re a course teaching assistant. Answer the QUESTION based on the CONTEXT from the FAQ database.\n    Use only the facts from the CONTEXT when answering the QUESTION.\n\n    QUESTION: \x7bquestion\x7d\n\n    CONTEXT: \n    \x7bcontext\x7d\n    "

/-- The template of `build_prompt` (the variable `prompt_template`). -/
def prompt_template : Str := pyStrip prompt_template_raw

/-- The template text before the question placeholder. -/
def tmpl_before_question : Str :=
  str "You\x27re a course teaching assistant. Answer the QUESTION based on the CONTEXT from the FAQ database.\n    Use only the facts from the CONTEXT when answering the QUESTION.\n\n    QUESTION: "

/-- The template text between the question and the context placeholders
(the template ends right after the context placeholder). -/
def tmpl_between : Str := str "\n\n    CONTEXT: \n    "

/-- The effect of `str.format` on the fixed template: the text around the
two placeholders is kept and the placeholders are replaced by the two
arguments. The theorem `prompt_template_split` checks the pieces against
the template literal, and `prompt_template_braces` checks that the
template holds no further placeholder brace. -/
def format_template (question context : Str) : Str :=
  tmpl_before_question ++ question ++ tmpl_between ++ context

/-- The context-building loop of `build_prompt`: starting from the current
value of the `context` variable, append one block per document. Each block
reads the keys `section`, `question` and `text` of the document, in that
order, so a missing key raises a `KeyError` there. -/
def buildContext : Str → List Doc → Except PyErr Str
  | context, [] => Except.ok context
  | context, doc :: rest => do
    let sec ← getItem doc (str "section")
    let que ← getItem doc (str "question")
    let txt ← getItem doc (str "text")
    buildContext
      (context ++ str "section: " ++ sec ++ str "\nquestion: " ++ que ++
        str "\nanswer: " ++ txt ++ str "\n\n") rest

/-- `build_prompt`: build the context from the search results, substitute
the question and the context into the template, and strip the result. -/
def build_prompt (query : Str) (search_results : List Doc) :
    Except PyErr Str := do
  let context ← buildContext (str "") search_results
  Except.ok (pyStrip (format_template query context))

/-- One chat message of the completion request. -/
structure ChatMessage where
  role : Str
  content : Str
deriving DecidableEq

/-- The chat-completion request sent by `llm`. -/
structure LlmRequest where
  model : Str
  messages : List ChatMessage
deriving DecidableEq

/-- The message of one completion choice. -/
structure LlmMessage where
  content : Str

/-- One completion choice of the response. -/
structure LlmChoice where
  message : LlmMessage

/-- A chat-completion response, as consumed by `llm`. -/
structure LlmResponse where
  choices : List LlmChoice

/-- The external completion client, `client.chat.completions.create`. -/
abbrev LlmClient := LlmRequest → Except PyErr LlmResponse

/-- The request assembled by `llm`: the fixed model identifier and a
single user-role message carrying the prompt. -/
def llm_request (prompt : Str) : LlmRequest :=
  { model := str "phi3"
    messages := [{ role := str "user", content := prompt }] }

/-- `llm`: send the single-message request and return the content of the
first choice of the response, unmodified. -/
def llm (client : LlmClient) (prompt : Str) : Except PyErr Str := do
  let response ← client (llm_request prompt)
  let choice ← pyGet0 response.choices
  Except.ok choice.message.content

/-- `rag`: search, build the prompt, call the completion client, return
the answer. The console progress markers printed between the steps have no
effect on the result and are not modelled. -/
def rag (es_client : EsClient) (client : LlmClient) (query : Str) :
    Except PyErr Str := do
  let search_results ← elastic_search es_client query default_index
  let prompt ← build_prompt query search_results
  let answer ← llm client prompt
  Except.ok answer

/-- The UI-bound state of `MyTextInputApp`. -/
structure UiState where
  input_text : Str
  output_text : Str
  is_loading : Bool
deriving DecidableEq

/-- `on_ask_clicked`: set the busy flag, show the placeholder text, and
schedule `finish_processing` on the event loop with the fixed two-second
delay (the returned number). -/
def on_ask_clicked (st : UiState) : UiState × Nat :=
  ({ st with is_loading := true, output_text := str "Processing..." }, 2)

/-- The attribute lookup `self.rag` performed by `finish_processing`.
Neither `MyTextInputApp` nor its base class defines an attribute `rag`:
the orchestrator `rag` exists only as a module-level function, and Python
attribute lookup does not fall back to module globals, so the lookup
raises `AttributeError` before any call happens. -/
def self_rag : Except PyErr (Str → Except PyErr Str) :=
  Except.error (PyErr.attributeError (str "rag"))

/-- `finish_processing`: evaluate `Output: ` followed by the result of
`self.rag(self.input_text)`, then show that text and clear the busy flag.
The attribute lookup `self_rag` raises first, so the method always
propagates `AttributeError` and neither assignment happens. -/
def finish_processing (st : UiState) : Except PyErr UiState := do
  let method ← self_rag
  let answer ← method st.input_text
  Except.ok { st with output_text := str "Output: " ++ answer
                      is_loading := false }

/-- The `section` value of a document (meaningful when the key is there). -/
def docSecV (d : Doc) : Str := (List.lookup (str "section") d).getD []

/-- The `question` value of a document. -/
def docQueV (d : Doc) : Str := (List.lookup (str "question") d).getD []

/-- The `text` value of a document. -/
def docTxtV (d : Doc) : Str := (List.lookup (str "text") d).getD []

/-- A document carries the three keys the prompt builder reads. -/
def docHasKeys (d : Doc) : Bool :=
  (List.lookup (str "section") d).isSome &&
  (List.lookup (str "question") d).isSome &&
  (List.lookup (str "text") d).isSome

/-- The transcript block of one document, without the closing blank line. -/
def blockCore (d : Doc) : Str :=
  str "section: " ++ docSecV d ++ str "\nquestion: " ++ docQueV d ++
    str "\nanswer: " ++ docTxtV d

/-- The transcript block of one document, as appended by the loop. -/
def blockFull (d : Doc) : Str := blockCore d ++ str "\n\n"

/-- The full context transcript of a document list. -/
def ctxJoin : List Doc → Str
  | [] => []
  | d :: rest => blockFull d ++ ctxJoin rest

/-- The context transcript without the final blank line. -/
def joinCore : List Doc → Str
  | [] => []
  | [d] => blockCore d
  | d :: rest => blockFull d ++ joinCore rest

/-- A string ends with a character that `str.strip` keeps. -/
def endsNonWs (t : Str) : Bool :=
  match t.reverse with
  | [] => false
  | c :: _ => !isPyWs c

/-- The final document of the list, if any, has a text value ending in a
character that `str.strip` keeps. -/
def lastTextOk (docs : List Doc) : Bool :=
  match docs.getLast? with
  | none => true
  | some d => endsNonWs (docTxtV d)

/-- The number of positions of `hay` at which `needle` occurs. -/
def countOccs (needle hay : Str) : Nat :=
  ((List.range (hay.length + 1)).filter
    (fun i => needle.isPrefixOf (hay.drop i))).length

/-- A builder for a document with the three keys the prompt builder reads. -/
def mkDoc (sec que txt : String) : Doc :=
  [(str "section", str sec), (str "question", str que), (str "text", str txt)]

/-- The stub document returned by the stub search client. -/
def stubDoc : Doc :=
  (str "course", str "data-engineering-zoomcamp") :: mkDoc
    "General course-related questions"
    "Course - Can I still join the course after the start date?"
    "Yes, even if you do not register, you are still eligible to submit the homeworks."

/-- A stub search client answering every request with the single stub hit. -/
def stubEs : EsClient := fun _ _ =>
  Except.ok { hits := { hits := [{ _source := stubDoc }] } }

/-- A stub completion client answering every request with one fixed
choice, `Register on the course page.`. -/
def stubLlm : LlmClient := fun _ =>
  Except.ok
    { choices := [{ message := { content := str "Register on the course page." } }] }

/-- A stub search client that always fails with a transport error. -/
def failEs : EsClient := fun _ _ =>
  Except.error (PyErr.connError (str "search down"))

/-- A stub completion client that always fails with a transport error. -/
def failLlm : LlmClient := fun _ =>
  Except.error (PyErr.connError (str "llm down"))

/-- A concrete initial UI state used by the witnesses. -/
def uiSt0 : UiState :=
  { input_text := str "How do I join the course?"
    output_text := str "Initial Output"
    is_loading := false }

/-- The prompt the code produces for query `q` and one document whose text
value is `XYZZY ` (trailing space): the final `strip` removes the space. -/
def c3cexPrompt : Str :=
  str "You\x27re a course teaching assistant. Answer the QUESTION based on the CONTEXT from the FAQ database.\n    Use only the facts from the CONTEXT when answering the QUESTION.\n\n    QUESTION: q\n\n    CONTEXT: \n    section: s\nquestion: w\nanswer: XYZZY"

/-- The prompt the code produces in the fixed scenario of the spec:
query `What is X?` and one document `General` / `What is X?` / `X is Y.`. -/
def c4Prompt : Str :=
  str "You\x27re a course teaching assistant. Answer the QUESTION based on the CONTEXT from the FAQ database.\n    Use only the facts from the CONTEXT when answering the QUESTION.\n\n    QUESTION: What is X?\n\n    CONTEXT: \n    section: General\nquestion: What is X?\nanswer: X is Y."

/-- The template is exactly the two kept pieces around the placeholders. -/
theorem prompt_template_split :
    prompt_template =
      tmpl_before_question ++ str "\x7bquestion\x7d" ++ tmpl_between ++
        str "\x7bcontext\x7d" := by
  decide

/-- The template holds no brace besides the two placeholder pairs. -/
theorem prompt_template_braces :
    countOccs (str "\x7b") prompt_template = 2 ∧
    countOccs (str "\x7d") prompt_template = 2 := by
  constructor <;> decide

/-- Bind on a successful `Except` step applies the continuation. -/
theorem except_bind_ok {α β : Type} (a : α) (f : α → Except PyErr β) :
    (Except.ok a >>= f) = f a := rfl

/-- Bind on a raised exception propagates the exception. -/
theorem except_bind_err {α β : Type} (e : PyErr) (f : α → Except PyErr β) :
    ((Except.error e : Except PyErr α) >>= f) = Except.error e := rfl

/-- `pyStripLeft` keeps a list whose head survives the strip. -/
theorem pyStripLeft_of_head (l r : Str) (c : Char) (hc : l.head? = some c)
    (hw : isPyWs c = false) : pyStripLeft (l ++ r) = l ++ r := by
  cases l with
  | nil => simp at hc
  | cons a t =>
    simp only [List.head?_cons, Option.some.injEq] at hc
    subst hc
    simp [pyStripLeft, List.dropWhile_cons, hw]

/-- `pyStripRight` does not reach across a right part that keeps at least
one character. -/
theorem pyStripRight_append (x y : Str)
    (hy : y.reverse.dropWhile isPyWs ≠ []) :
    pyStripRight (x ++ y) = x ++ pyStripRight y := by
  unfold pyStripRight
  rw [List.reverse_append, List.dropWhile_append]
  split
  · rename_i h
    exact absurd (by simpa using h) hy
  · rw [List.reverse_append, List.reverse_reverse]

/-- `pyStripRight` removes an all-whitespace right part entirely. -/
theorem pyStripRight_append_allws (x y : Str)
    (hy : ∀ c ∈ y, isPyWs c = true) :
    pyStripRight (x ++ y) = pyStripRight x := by
  unfold pyStripRight
  rw [List.reverse_append, List.dropWhile_append]
  split
  · rfl
  · rename_i h
    exfalso
    apply h
    simp only [List.isEmpty_eq_true, List.dropWhile_eq_nil_iff, List.mem_reverse]
    exact hy

/-- `pyStripRight` keeps a list ending in a surviving character. -/
theorem pyStripRight_snoc (f : Str) (c : Char) (h : isPyWs c = false) :
    pyStripRight (f ++ [c]) = f ++ [c] := by
  unfold pyStripRight
  rw [List.reverse_append]
  simp only [List.reverse_cons, List.reverse_nil, List.nil_append,
    List.singleton_append]
  rw [List.dropWhile_cons_of_neg (by simp [h]), List.reverse_cons,
    List.reverse_reverse]

/-- Under the key precondition, the three dict reads give the projections. -/
theorem getItem_of_hasKeys (d : Doc) (h : docHasKeys d = true) :
    getItem d (str "section") = Except.ok (docSecV d) ∧
    getItem d (str "question") = Except.ok (docQueV d) ∧
    getItem d (str "text") = Except.ok (docTxtV d) := by
  unfold docHasKeys at h
  simp only [Bool.and_eq_true] at h
  obtain ⟨⟨h1, h2⟩, h3⟩ := h
  refine ⟨?_, ?_, ?_⟩
  · unfold getItem docSecV
    cases hl : List.lookup (str "section") d with
    | none => rw [hl] at h1; simp at h1
    | some v => simp [hl]
  · unfold getItem docQueV
    cases hl : List.lookup (str "question") d with
    | none => rw [hl] at h2; simp at h2
    | some v => simp [hl]
  · unfold getItem docTxtV
    cases hl : List.lookup (str "text") d with
    | none => rw [hl] at h3; simp at h3
    | some v => simp [hl]

/-- Under the key precondition the loop succeeds and appends the blocks of
the documents, in list order, to the running context. -/
theorem buildContext_ok (docs : List Doc) :
    ∀ acc : Str, (∀ d ∈ docs, docHasKeys d = true) →
      buildContext acc docs = Except.ok (acc ++ ctxJoin docs) := by
  induction docs with
  | nil => intro acc _; simp [buildContext, ctxJoin]
  | cons d rest ih =>
    intro acc hk
    obtain ⟨h1, h2, h3⟩ := getItem_of_hasKeys d (hk d (by simp))
    have hstep : buildContext acc (d :: rest) =
        buildContext (acc ++ str "section: " ++ docSecV d ++
          str "\nquestion: " ++ docQueV d ++ str "\nanswer: " ++ docTxtV d ++
          str "\n\n") rest := by
      simp only [buildContext, h1, h2, h3, except_bind_ok]
    rw [hstep, ih _ (fun d2 hd2 => hk d2 (by simp [hd2]))]
    simp [ctxJoin, blockFull, blockCore, List.append_assoc]

/-- A document without one of the three keys makes the loop raise a
`KeyError`, whatever comes before or after it. -/
theorem buildContext_err (docs : List Doc) :
    ∀ acc : Str, (∃ d ∈ docs, docHasKeys d = false) →
      ∃ k, buildContext acc docs = Except.error (PyErr.keyError k) := by
  induction docs with
  | nil => intro acc h; simp at h
  | cons d rest ih =>
    intro acc h
    by_cases hd : docHasKeys d = true
    · obtain ⟨h1, h2, h3⟩ := getItem_of_hasKeys d hd
      have hstep : buildContext acc (d :: rest) =
          buildContext (acc ++ str "section: " ++ docSecV d ++
            str "\nquestion: " ++ docQueV d ++ str "\nanswer: " ++ docTxtV d ++
            str "\n\n") rest := by
        simp only [buildContext, h1, h2, h3, except_bind_ok]
      obtain ⟨d2, hmem, hk2⟩ := h
      rcases List.mem_cons.mp hmem with heq | hmem2
      · subst heq; rw [hd] at hk2; cases hk2
      · obtain ⟨k, hkk⟩ := ih _ ⟨d2, hmem2, hk2⟩
        exact ⟨k, by rw [hstep]; exact hkk⟩
    · cases hs : List.lookup (str "section") d with
      | none =>
        refine ⟨str "section", ?_⟩
        simp only [buildContext, getItem, hs, except_bind_err]
      | some v1 =>
        cases hq : List.lookup (str "question") d with
        | none =>
          refine ⟨str "question", ?_⟩
          simp only [buildContext, getItem, hs, hq, except_bind_ok,
            except_bind_err]
        | some v2 =>
          cases ht : List.lookup (str "text") d with
          | none =>
            refine ⟨str "text", ?_⟩
            simp only [buildContext, getItem, hs, hq, ht, except_bind_ok,
              except_bind_err]
          | some v3 =>
            exfalso
            apply hd
            unfold docHasKeys
            rw [hs, hq, ht]
            rfl

/-- The prompt built from an empty result list: the context renders as the
empty string and the final strip ends the prompt right after `CONTEXT:`. -/
theorem build_prompt_nil (q : Str) :
    build_prompt q [] =
      Except.ok (tmpl_before_question ++ q ++ str "\n\n    CONTEXT:") := by
  have hfmt : format_template q (str "") =
      (tmpl_before_question ++ q) ++ tmpl_between := by
    simp [format_template, str]
  have hB : pyStripRight tmpl_between = str "\n\n    CONTEXT:" := by decide
  have hcalc : pyStrip (format_template q (str "")) =
      tmpl_before_question ++ q ++ str "\n\n    CONTEXT:" := by
    rw [hfmt]
    unfold pyStrip
    rw [pyStripRight_append _ _ (by decide), hB, List.append_assoc]
    rw [pyStripLeft_of_head _ _ 'Y' (by decide) (by decide)]
  show Except.ok (pyStrip (format_template q (str ""))) = _
  rw [hcalc]

/-- Under the key precondition, the prompt is the stripped template filled
with the question and the full context transcript. -/
theorem build_prompt_of_keys (q : Str) (docs : List Doc)
    (h : ∀ d ∈ docs, docHasKeys d = true) :
    build_prompt q docs =
      Except.ok (pyStrip (format_template q (ctxJoin docs))) := by
  unfold build_prompt
  rw [buildContext_ok docs (str "") h, except_bind_ok]
  simp [str]

/-- The full transcript of a nonempty list is its core transcript followed
by the final blank line. -/
theorem ctxJoin_eq_joinCore (docs : List Doc) (h : docs ≠ []) :
    ctxJoin docs = joinCore docs ++ str "\n\n" := by
  induction docs with
  | nil => cases h rfl
  | cons d rest ih =>
    cases rest with
    | nil => simp [ctxJoin, joinCore, blockFull]
    | cons d2 t =>
      have := ih (by simp)
      simp only [ctxJoin, joinCore] at this ⊢
      rw [this, List.append_assoc]

/-- A string that ends in a kept character splits off its last character. -/
theorem endsNonWs_spec (t : Str) (h : endsNonWs t = true) :
    ∃ f c, t = f ++ [c] ∧ isPyWs c = false := by
  unfold endsNonWs at h
  cases hr : t.reverse with
  | nil => rw [hr] at h; cases h
  | cons c r =>
    rw [hr] at h
    refine ⟨r.reverse, c, ?_, by simpa using h⟩
    have := congrArg List.reverse hr
    simpa using this

/-- The core transcript of a nonempty list whose final text value ends in
a kept character itself ends in a kept character. -/
theorem joinCore_snoc (docs : List Doc) (h : docs ≠ [])
    (hlast : lastTextOk docs = true) :
    ∃ f c, joinCore docs = f ++ [c] ∧ isPyWs c = false := by
  induction docs with
  | nil => cases h rfl
  | cons d rest ih =>
    cases rest with
    | nil =>
      have hl : lastTextOk [d] = endsNonWs (docTxtV d) := by
        simp [lastTextOk]
      rw [hl] at hlast
      obtain ⟨f0, c, hf0, hc⟩ := endsNonWs_spec _ hlast
      refine ⟨(str "section: " ++ docSecV d ++ str "\nquestion: " ++
        docQueV d ++ str "\nanswer: ") ++ f0, c, ?_, hc⟩
      simp only [joinCore, blockCore, hf0]
      simp [List.append_assoc]
    | cons d2 t =>
      have hl : lastTextOk (d :: d2 :: t) = lastTextOk (d2 :: t) := by
        simp [lastTextOk, List.getLast?_cons_cons]
      rw [hl] at hlast
      obtain ⟨f, c, hf, hc⟩ := ih (by simp) hlast
      refine ⟨blockFull d ++ f, c, ?_, hc⟩
      simp only [joinCore, hf]
      simp [List.append_assoc]

/-- The prompt built from a nonempty result list whose final text value
ends in a kept character: the strip removes exactly the final blank line. -/
theorem build_prompt_cons (q : Str) (docs : List Doc) (hne : docs ≠ [])
    (hkeys : ∀ d ∈ docs, docHasKeys d = true)
    (hlast : lastTextOk docs = true) :
    build_prompt q docs =
      Except.ok (tmpl_before_question ++ q ++ tmpl_between ++
        joinCore docs) := by
  rw [build_prompt_of_keys q docs hkeys]
  congr 1
  rw [ctxJoin_eq_joinCore docs hne]
  obtain ⟨f, c, hf, hc⟩ := joinCore_snoc docs hne hlast
  have hfmt : format_template q (joinCore docs ++ str "\n\n") =
      (((tmpl_before_question ++ q ++ tmpl_between) ++ f) ++ [c]) ++
        str "\n\n" := by
    simp only [format_template, hf]
    simp [List.append_assoc]
  rw [hfmt]
  unfold pyStrip
  rw [pyStripRight_append_allws _ _ (by decide), pyStripRight_snoc _ _ hc]
  have hshape : (((tmpl_before_question ++ q ++ tmpl_between) ++ f) ++ [c]) =
      tmpl_before_question ++ (q ++ (tmpl_between ++ (f ++ [c]))) := by
    simp [List.append_assoc]
  rw [hshape, pyStripLeft_of_head _ _ 'Y' (by decide) (by decide), hf]
  simp [List.append_assoc]

/-- The block of every member document sits inside the core transcript. -/
theorem blockCore_sub_joinCore (d : Doc) (docs : List Doc) (h : d ∈ docs) :
    blockCore d <:+: joinCore docs := by
  induction docs with
  | nil => simp at h
  | cons d2 rest ih =>
    cases rest with
    | nil =>
      have hd : d = d2 := by simpa using h
      subst hd
      exact ⟨[], [], by simp [joinCore]⟩
    | cons d3 t =>
      rcases List.mem_cons.mp h with heq | hmem
      · subst heq
        exact ⟨[], str "\n\n" ++ joinCore (d3 :: t),
          by simp [joinCore, blockFull, List.append_assoc]⟩
      · obtain ⟨u, v, huv⟩ := ih hmem
        refine ⟨blockFull d2 ++ u, v, ?_⟩
        simp only [joinCore]
        rw [← huv]
        simp [List.append_assoc]

/-- C1: for every pair of clients and every query, `rag` is exactly the
completion client applied to the prompt built from the query and the
search results for that query; in the stubbed scenario (one relevant
document, completion answering `Register on the course page.`), `rag`
returns that answer string without modification. -/
theorem claim_C1 :
    (∀ (es : EsClient) (c : LlmClient) (q : Str),
      rag es c q = elastic_search es q default_index >>=
        fun sr => build_prompt q sr >>= fun p => llm c p) ∧
    rag stubEs stubLlm (str "How do I join the course?") =
      Except.ok (str "Register on the course page.") := by
  constructor
  · intro es c q
    unfold rag
    cases hes : elastic_search es q default_index with
    | error e => rfl
    | ok sr =>
      simp only [except_bind_ok]
      cases hbp : build_prompt q sr with
      | error e => rfl
      | ok p =>
        simp only [except_bind_ok]
        cases hl : llm c p with
        | error e => rfl
        | ok a => rfl
  · rfl

/-- C2: for every query string, the request body built by
`elastic_search` has size 5, a `multi_match` over exactly the fields
`question^3`, `text` and `section` of type `best_fields`, and a `term`
filter fixing the course `data-engineering-zoomcamp`; the query text
appears only as the `multi_match` query, and `elastic_search` passes
exactly this body to the search client. -/
theorem claim_C2 :
    ∀ q : Str,
      (search_query q).size = 5 ∧
      (search_query q).query.bool.must.fields =
        [str "question^3", str "text", str "section"] ∧
      (search_query q).query.bool.must.type = str "best_fields" ∧
      (search_query q).query.bool.filter.course =
        str "data-engineering-zoomcamp" ∧
      (search_query q).query.bool.must.query = q ∧
      ∀ es : EsClient, elastic_search es q default_index =
        (es default_index (search_query q)).bind
          (fun r => Except.ok (r.hits.hits.map (fun h => h._source))) := by
  intro q
  exact ⟨rfl, rfl, rfl, rfl, rfl, fun es => rfl⟩

/-- C4: on search results `[General / What is X? / X is Y.]` and query
`What is X?`, the built prompt holds exactly one occurrence of the context
block of those three lines and holds the line `QUESTION: What is X?`. -/
theorem claim_C4 :
    build_prompt (str "What is X?") [mkDoc "General" "What is X?" "X is Y."] =
      Except.ok c4Prompt ∧
    countOccs (str "section: General\nquestion: What is X?\nanswer: X is Y.")
      c4Prompt = 1 ∧
    (str "QUESTION: What is X?") <:+: c4Prompt := by
  refine ⟨rfl, by decide, by decide⟩

/-- C5: for every prompt, the request `llm` sends eliminates to a single
message, of role `user` and content the prompt; and whenever the client
answers with a first choice, `llm` returns that choice content
unmodified. -/
theorem claim_C5 :
    ∀ (c : LlmClient) (p : Str),
      (llm_request p).messages = [{ role := str "user", content := p }] ∧
      ∀ (r : LlmResponse) (ch : LlmChoice) (rest : List LlmChoice),
        c (llm_request p) = Except.ok r → r.choices = ch :: rest →
        llm c p = Except.ok ch.message.content := by
  intro c p
  refine ⟨rfl, ?_⟩
  intro r ch rest hc hch
  unfold llm
  rw [hc, except_bind_ok, hch]
  rfl

/-- Witness for C5: a concrete client carrying one choice. -/
theorem claim_C5_witness :
    llm stubLlm (str "hello") =
      Except.ok (str "Register on the course page.") := by
  exact (claim_C5 stubLlm (str "hello")).2
    { choices := [{ message := { content := str "Register on the course page." } }] }
    { message := { content := str "Register on the course page." } } [] rfl rfl

/-- C6: for every query, `build_prompt` on the empty result list returns
normally, with the context rendered as the empty string (the final strip
ends the prompt right after `CONTEXT:`), and the query text still appears
in the output. -/
theorem claim_C6 :
    ∀ q : Str,
      build_prompt q [] =
        Except.ok (tmpl_before_question ++ q ++ str "\n\n    CONTEXT:") ∧
      q <:+: tmpl_before_question ++ q ++ str "\n\n    CONTEXT:" := by
  intro q
  exact ⟨build_prompt_nil q, ⟨tmpl_before_question, str "\n\n    CONTEXT:", rfl⟩⟩

/-- C3 as stated is false: on query `q` and the single document with
section `s`, question `w` and text `XYZZY ` (trailing space), the final
strip of `build_prompt` trims the trailing space, and the returned string
does not contain the text value of the document. -/
theorem claim_C3_cex :
    build_prompt (str "q") [mkDoc "s" "w" "XYZZY "] =
      Except.ok c3cexPrompt ∧
    ¬ (str "XYZZY ") <:+: c3cexPrompt := by
  refine ⟨rfl, by decide⟩

/-- C3 (amended): for every query and every list of at most five documents
carrying the three keys, provided that the text value of the final
document (if any) ends in a character that `strip` keeps, the returned
string contains the query text, the whole core transcript of the documents
(every block in list order, duplicates included, nothing truncated), and
in particular each document's section, question and text values in that
order inside its block. -/
theorem claim_C3_amended :
    ∀ (q : Str) (docs : List Doc),
      docs.length ≤ 5 →
      (∀ d ∈ docs, docHasKeys d = true) →
      lastTextOk docs = true →
      ∃ p, build_prompt q docs = Except.ok p ∧
        q <:+: p ∧ joinCore docs <:+: p ∧
        ∀ d ∈ docs, blockCore d <:+: p := by
  intro q docs _ hkeys hlast
  cases docs with
  | nil =>
    refine ⟨tmpl_before_question ++ q ++ str "\n\n    CONTEXT:",
      build_prompt_nil q, ?_, ?_, ?_⟩
    · exact ⟨tmpl_before_question, str "\n\n    CONTEXT:", rfl⟩
    · exact ⟨[], tmpl_before_question ++ q ++ str "\n\n    CONTEXT:", by simp [joinCore]⟩
    · intro d hd
      simp at hd
  | cons d rest =>
    refine ⟨tmpl_before_question ++ q ++ tmpl_between ++ joinCore (d :: rest),
      build_prompt_cons q (d :: rest) (by simp) hkeys hlast, ?_, ?_, ?_⟩
    · exact ⟨tmpl_before_question, tmpl_between ++ joinCore (d :: rest),
        by simp [List.append_assoc]⟩
    · exact ⟨tmpl_before_question ++ q ++ tmpl_between, [], by simp⟩
    · intro d2 hd2
      exact (blockCore_sub_joinCore d2 (d :: rest) hd2).trans
        ⟨tmpl_before_question ++ q ++ tmpl_between, [], by simp⟩

/-- Witness for the amended C3 at two concrete documents. -/
theorem claim_C3_amended_witness :
    ∃ p, build_prompt (str "q0")
        [mkDoc "S1" "Q1" "T1", mkDoc "S2" "Q2" "T2"] = Except.ok p ∧
      (str "q0") <:+: p ∧
      joinCore [mkDoc "S1" "Q1" "T1", mkDoc "S2" "Q2" "T2"] <:+: p ∧
      ∀ d ∈ [mkDoc "S1" "Q1" "T1", mkDoc "S2" "Q2" "T2"],
        blockCore d <:+: p := by
  exact claim_C3_amended (str "q0") _ (by decide) (by decide) (by decide)

/-- C7: a failing search call makes `rag` propagate exactly that failure,
for every completion client (so neither the prompt builder nor the
completion client can influence the outcome); a failing completion call
after a successful search and prompt build makes `rag` propagate exactly
that failure; the UI callback catches nothing and produces no substitute
answer — but it raises `AttributeError` at the lookup `self.rag` on every
state, before the orchestrator is even invoked, so a search or completion
failure never traverses the UI handler as the claim intends. -/
theorem claim_C7 :
    (∀ (es : EsClient) (c : LlmClient) (q : Str) (e : PyErr),
      es default_index (search_query q) = Except.error e →
      rag es c q = Except.error e) ∧
    (∀ (es : EsClient) (c : LlmClient) (q p : Str) (docs : List Doc)
        (e : PyErr),
      elastic_search es q default_index = Except.ok docs →
      build_prompt q docs = Except.ok p →
      llm c p = Except.error e →
      rag es c q = Except.error e) ∧
    (∀ st : UiState, finish_processing st =
      Except.error (PyErr.attributeError (str "rag"))) := by
  refine ⟨?_, ?_, ?_⟩
  · intro es c q e h
    unfold rag elastic_search
    rw [h]
    rfl
  · intro es c q p docs e hes hbp hllm
    unfold rag
    rw [hes, except_bind_ok, hbp, except_bind_ok, hllm]
    rfl
  · intro st
    rfl

/-- Witness for C7 with concrete failing clients and a concrete state. -/
theorem claim_C7_witness :
    rag failEs stubLlm (str "hi") =
      Except.error (PyErr.connError (str "search down")) ∧
    rag stubEs failLlm (str "hi") =
      Except.error (PyErr.connError (str "llm down")) ∧
    finish_processing uiSt0 =
      Except.error (PyErr.attributeError (str "rag")) := by
  refine ⟨?_, ?_, ?_⟩
  · exact claim_C7.1 failEs stubLlm (str "hi") _ rfl
  · exact claim_C7.2.1 stubEs failLlm (str "hi") _ _ _ rfl rfl rfl
  · exact claim_C7.2.2 uiSt0

/-- C8 (code bug): the busy flag is set at once when the submit handler
runs, and `finish_processing` is scheduled with the fixed delay 2; but
the deferred callback always raises `AttributeError` at the lookup
`self.rag`, whatever the state, so the busy flag is never cleared and no
answer is ever displayed — the Busy-to-Idle transition the claim (and the
spec) describe never happens. -/
theorem claim_C8 :
    (∀ st : UiState, (on_ask_clicked st).1.is_loading = true) ∧
    (∀ st : UiState, (on_ask_clicked st).2 = 2) ∧
    (∀ st : UiState, finish_processing st =
      Except.error (PyErr.attributeError (str "rag"))) :=
  ⟨fun _ => rfl, fun _ => rfl, fun _ => rfl⟩

/-- C9: `build_prompt` returns normally on every list of documents that
all carry the keys `section`, `question` and `text` (in particular it
raises no `ValueError` on the empty list, despite its docstring); and on
any list holding a document without one of those keys it raises a
`KeyError` instead of returning. -/
theorem claim_C9 :
    (∀ (q : Str) (docs : List Doc), (∀ d ∈ docs, docHasKeys d = true) →
      ∃ p, build_prompt q docs = Except.ok p) ∧
    (∀ (q : Str) (docs : List Doc), (∃ d ∈ docs, docHasKeys d = false) →
      ∃ k, build_prompt q docs = Except.error (PyErr.keyError k)) := by
  constructor
  · intro q docs hk
    exact ⟨pyStrip (format_template q (ctxJoin docs)),
      build_prompt_of_keys q docs hk⟩
  · intro q docs h
    obtain ⟨k, hkk⟩ := buildContext_err docs (str "") h
    refine ⟨k, ?_⟩
    unfold build_prompt
    rw [hkk, except_bind_err]

/-- Witness for C9: a complete document succeeds, a document missing the
`text` key raises a `KeyError`. -/
theorem claim_C9_witness :
    (∃ p, build_prompt (str "q")
      [mkDoc "General" "What is X?" "X is Y."] = Except.ok p) ∧
    (∃ k, build_prompt (str "q")
      [[(str "section", str "General"), (str "question", str "W")]] =
        Except.error (PyErr.keyError k)) := by
  constructor
  · exact claim_C9.1 (str "q") _ (by decide)
  · exact claim_C9.2 (str "q") _ (by decide)

/-- C10 (code bug): the submit handler does show the placeholder
`Processing...`; but the deferred callback, which the claim says shows
`Output: ` followed by the orchestrator's answer, instead raises
`AttributeError` at the lookup `self.rag` on every state, before any
assignment, so that display never occurs. -/
theorem claim_C10 :
    (∀ st : UiState, (on_ask_clicked st).1.output_text = str "Processing...") ∧
    (∀ st : UiState, finish_processing st =
      Except.error (PyErr.attributeError (str "rag"))) :=
  ⟨fun _ => rfl, fun _ => rfl⟩
